import Mathlib

/-!
Shallow embedding of the data-normalization core of the `home-dashboard`
repository: `src/home_dashboard/bus_api.py` (transit arrivals fetcher) and
`src/home_dashboard/weather_api.py` (environment fetcher).

Modelling conventions:
* Python `datetime` values are modelled by `PyDatetime`: a wall-clock reading
  in integer seconds since the epoch together with an optional UTC offset
  (`none` models a naive datetime, `some k` a timezone-aware one with offset
  `k` seconds).  Subtraction of two aware datetimes compares instants, which
  is `wall_seconds - offset`.  Second granularity is used; the code's
  float `total_seconds()` only adds a sub-second fraction that cannot change
  the floored minute count.
* The HTTP layer (`httpx.get`, `raise_for_status`, `.json()`) is replaced by
  an oracle describing the outcome of the request phase (`HttpOutcome` for
  the transit fetch, `SubFetch` per weather sub-fetch): every exception the
  `try` block can catch is one of the failure constructors, and the success
  constructor carries the decoded payload shape the code reads.
* Python exceptions that escape a function are modelled with `Except Unit`:
  `.error ()` is an uncaught exception propagating to the caller.
* A slot's `EstimatedArrival` string is modelled by `EAField`: the empty /
  absent string, a non-empty string that `datetime.fromisoformat` parses to
  some `PyDatetime`, or a non-empty string that it rejects (`ValueError`).
-/

namespace HomeDashboard

/-- A Python `datetime`: wall-clock seconds since the epoch plus an optional
UTC offset in seconds (`none` = naive, no `tzinfo`). -/
structure PyDatetime where
  wall_seconds : Int
  utc_offset : Option Int
deriving DecidableEq

/-- The instant (UTC seconds since the epoch) denoted by a datetime once it is
timezone-aware; a naive datetime is first given `tzinfo=timezone.utc`, which
is how `_parse_arrival` treats it. -/
def PyDatetime.instantUTC (t : PyDatetime) : Int :=
  t.wall_seconds - t.utc_offset.getD 0

/-- `bus_api.BusLoad`: bus passenger load levels. -/
inductive BusLoad where
  | SEATS_AVAILABLE
  | STANDING_AVAILABLE
  | LIMITED_STANDING
  | UNKNOWN
deriving DecidableEq

/-- `BusLoad(load_str)`: enum lookup by value; the surrounding
`try/except ValueError` in `_parse_arrival` turns any unlisted code into
`BusLoad.UNKNOWN`. -/
def BusLoad.fromCode (s : String) : BusLoad :=
  if s = "SEA" then .SEATS_AVAILABLE
  else if s = "SDA" then .STANDING_AVAILABLE
  else if s = "LSD" then .LIMITED_STANDING
  else .UNKNOWN

/-- `bus_api.BusType`: bus vehicle types. -/
inductive BusType where
  | SINGLE_DECK
  | DOUBLE_DECK
  | BENDY
  | UNKNOWN
deriving DecidableEq

/-- `BusType(type_str)` with the `try/except ValueError` fallback to
`BusType.UNKNOWN`. -/
def BusType.fromCode (s : String) : BusType :=
  if s = "SD" then .SINGLE_DECK
  else if s = "DD" then .DOUBLE_DECK
  else if s = "BD" then .BENDY
  else .UNKNOWN

/-- `bus_api.BusArrival`: a single bus arrival entry.  `estimated_arrival`
stores the datetime after the naive-to-UTC fixup. -/
structure BusArrival where
  estimated_arrival : Option PyDatetime
  minutes_away : Option Int
  load : BusLoad
  bus_type : BusType
  is_wheelchair_accessible : Bool
  is_arriving : Bool
  has_data : Bool
deriving DecidableEq

/-- `bus_api.BusArrivalResponse`: complete bus arrival response for a service.
`fetched_at` is the captured `now` instant in UTC seconds. -/
structure BusArrivalResponse where
  bus_stop_code : String
  service_no : String
  arrivals : List BusArrival
  fetched_at : Int
  error : Option String := none
deriving DecidableEq

/-- The `EstimatedArrival` value of a slot dict as seen through
`bus_data.get("EstimatedArrival", "")` followed by `datetime.fromisoformat`:
empty/absent string, a parseable non-empty string (carrying its parse), or a
non-empty string rejected with `ValueError`. -/
inductive EAField where
  | empty
  | valid (t : PyDatetime)
  | malformed
deriving DecidableEq

/-- A non-empty `NextBus`/`NextBus2`/`NextBus3` dict, restricted to the keys
`_parse_arrival` reads; each `.get(key, "")` default is the empty string. -/
structure SlotData where
  estimatedArrival : EAField
  loadCode : String
  typeCode : String
  feature : String
deriving DecidableEq

/-- `bus_api._parse_arrival(bus_data, now)`.  `now` is an aware UTC datetime,
modelled by its instant in seconds.  `.error ()` is the uncaught `ValueError`
raised by `datetime.fromisoformat` on a malformed non-empty string. -/
def _parse_arrival (bus_data : SlotData) (now : Int) : Except Unit BusArrival :=
  match bus_data.estimatedArrival with
  | .empty =>
      .ok { estimated_arrival := none
            minutes_away := none
            load := .UNKNOWN
            bus_type := .UNKNOWN
            is_wheelchair_accessible := false
            is_arriving := false
            has_data := false }
  | .malformed => .error ()
  | .valid t =>
      let estimated : PyDatetime := { t with utc_offset := some (t.utc_offset.getD 0) }
      let delta_seconds : Int := estimated.instantUTC - now
      let minutes : Int := max 0 (Int.fdiv delta_seconds 60)
      .ok { estimated_arrival := some estimated
            minutes_away := some minutes
            load := BusLoad.fromCode bus_data.loadCode
            bus_type := BusType.fromCode bus_data.typeCode
            is_wheelchair_accessible := bus_data.feature = "WAB"
            is_arriving := minutes ≤ 1
            has_data := true }

/-- One entry of the `Services` list: the three upcoming-bus slots as read by
`service.get(key, {})` followed by the `if bus_data:` truthiness test.
`none` models an absent key or an empty dict (both are skipped). -/
structure ServiceData where
  nextBus : Option SlotData
  nextBus2 : Option SlotData
  nextBus3 : Option SlotData
deriving DecidableEq

/-- The decoded JSON body on the success path, restricted to what the code
reads: `data.get("Services", [])`. -/
structure BusApiBody where
  services : List ServiceData
deriving DecidableEq

/-- Outcome of the guarded request phase of `fetch_bus_arrivals` (the `try`
block around `httpx.get` / `raise_for_status` / `response.json()`), one
constructor per `except` clause plus success with the decoded body. -/
inductive HttpOutcome where
  | timeout
  | statusError (code : Nat)
  | networkError
  | otherException
  | success (body : BusApiBody)
deriving DecidableEq

/-- The slot loop of `fetch_bus_arrivals`: for each present (truthy) slot,
parse it and append it only when `has_data` is true; an uncaught exception
from `_parse_arrival` aborts the whole fetch. -/
def collectArrivals (slots : List (Option SlotData)) (now : Int) :
    Except Unit (List BusArrival) :=
  match slots with
  | [] => .ok []
  | none :: rest => collectArrivals rest now
  | some bus_data :: rest =>
      match _parse_arrival bus_data now with
      | .error e => .error e
      | .ok arrival =>
          match collectArrivals rest now with
          | .error e => .error e
          | .ok tail =>
              if arrival.has_data then .ok (arrival :: tail) else .ok tail

/-- `bus_api.fetch_bus_arrivals`.  The request phase is abstracted by
`outcome`; `now` is the UTC instant captured at call start.  `api_key`,
`base_url` and `timeout_seconds` only shape the HTTP request and are absorbed
into `outcome`.  `.error ()` models an exception escaping to the caller. -/
def fetch_bus_arrivals (bus_stop_code service_no : String) (now : Int)
    (outcome : HttpOutcome) : Except Unit BusArrivalResponse :=
  match outcome with
  | .timeout =>
      .ok { bus_stop_code, service_no, arrivals := [], fetched_at := now
            error := some "API request timed out" }
  | .statusError code =>
      .ok { bus_stop_code, service_no, arrivals := [], fetched_at := now
            error := some ("API returned HTTP " ++ toString code) }
  | .networkError =>
      .ok { bus_stop_code, service_no, arrivals := [], fetched_at := now
            error := some "Network error" }
  | .otherException =>
      .ok { bus_stop_code, service_no, arrivals := [], fetched_at := now
            error := some "Unexpected error" }
  | .success body =>
      match body.services with
      | [] =>
          .ok { bus_stop_code, service_no, arrivals := [], fetched_at := now
                error := some "No service data. Bus may not be operating." }
      | service :: _ =>
          match collectArrivals
              [service.nextBus, service.nextBus2, service.nextBus3] now with
          | .error e => .error e
          | .ok arrivals =>
              .ok { bus_stop_code, service_no, arrivals, fetched_at := now
                    error := none }

/-! Weather / air-quality embedding (`weather_api.py`). -/

/-- `weather_api._pm25_level`: air quality level label for a PM2.5 reading. -/
def _pm25_level (value : Int) : String :=
  if value ≤ 55 then "Good"
  else if value ≤ 150 then "Moderate"
  else if value ≤ 250 then "Unhealthy"
  else if value ≤ 350 then "Very Unhealthy"
  else "Hazardous"

/-- `weather_api._pm25_css_class`: CSS class for a PM2.5 level. -/
def _pm25_css_class (value : Int) : String :=
  if value ≤ 55 then "aqi-good"
  else if value ≤ 150 then "aqi-moderate"
  else "aqi-unhealthy"

/-- `weather_api.WeatherInfo`: weather and air quality data. -/
structure WeatherInfo where
  forecast : String
  temp_low : Int
  temp_high : Int
  humidity_low : Int
  humidity_high : Int
  pm25 : Option Int
  pm25_level : String
  pm25_css_class : String
  error : Option String := none
deriving DecidableEq

/-- One entry of `items[0]["forecasts"]` in the 2-hour forecast payload, as
read by `f.get("area", "")` / `f.get("forecast", "")`. -/
structure AreaForecast where
  area : String
  forecast : String
deriving DecidableEq

/-- One entry of the 2-hour forecast `items` list. -/
structure TwoHourItem where
  forecasts : List AreaForecast
deriving DecidableEq

/-- `low`/`high` of a 24-hour forecast range after `int()` coercion; `none`
models a missing key, defaulted to `0` by `.get(key, 0)`. -/
structure IntRange where
  low : Option Int
  high : Option Int
deriving DecidableEq

/-- One entry of the 24-hour forecast `items` list, restricted to
`general.temperature` and `general.relative_humidity`. -/
structure TwentyFourHourItem where
  temperature : IntRange
  relative_humidity : IntRange
deriving DecidableEq

/-- One entry of the PM2.5 `items` list: the region-keyed
`readings.pm25_one_hourly` dict (values after `int()` coercion). -/
structure Pm25Item where
  pm25_one_hourly : List (String × Int)
deriving DecidableEq

/-- Outcome of one guarded sub-fetch of `fetch_weather`: `.fail` is any
exception caught by the `except Exception` clause; `.ok` carries the decoded
`items` list the code then reads. -/
inductive SubFetch (α : Type) where
  | fail
  | ok (items : List α)
deriving DecidableEq

/-- Whether a sub-fetch outcome raised (and so appends its component name to
the `errors` list). -/
def SubFetch.failed {α : Type} : SubFetch α → Bool
  | .fail => true
  | .ok _ => false

/-- Python `str.lower()` as used on the area names, written as a structural
map over the characters so that concrete values compute. -/
def lowerStr (s : String) : String :=
  ⟨s.data.map Char.toLower⟩

/-- The case-insensitive area scan of the 2-hour forecast step: first entry of
`items[0]["forecasts"]` whose lowered `area` matches the lowered query, else
nothing. -/
def findAreaForecast (area : String) (forecasts : List AreaForecast) :
    Option AreaForecast :=
  forecasts.find? (fun f => lowerStr f.area == lowerStr area)

/-- `weather_api.fetch_weather`.  Each of the three HTTP sub-fetches is
abstracted by a `SubFetch` oracle; `timeout_seconds` only shapes the requests
and is absorbed into them.  The body mirrors the source statement by
statement: state variables start at their defaults, each sub-fetch either
updates them or appends its component name to `errors`, and the aggregate
`error` joins the accumulated names. -/
def fetch_weather (area : String) (pm25_region : String)
    (forecast2h : SubFetch TwoHourItem)
    (forecast24h : SubFetch TwentyFourHourItem)
    (pm25Fetch : SubFetch Pm25Item) : WeatherInfo :=
  let forecast : String :=
    match forecast2h with
    | .fail => ""
    | .ok items =>
        match items with
        | [] => ""
        | item :: _ =>
            match findAreaForecast area item.forecasts with
            | some f => f.forecast
            | none => ""
  let errors1 : List String :=
    match forecast2h with
    | .fail => ["weather forecast"]
    | .ok _ => []
  let ranges : Int × Int × Int × Int :=
    match forecast24h with
    | .fail => (0, 0, 0, 0)
    | .ok items =>
        match items with
        | [] => (0, 0, 0, 0)
        | item :: _ =>
            (item.temperature.low.getD 0, item.temperature.high.getD 0,
             item.relative_humidity.low.getD 0, item.relative_humidity.high.getD 0)
  let errors2 : List String :=
    match forecast24h with
    | .fail => ["temperature"]
    | .ok _ => []
  let pm25_value : Option Int :=
    match pm25Fetch with
    | .fail => none
    | .ok items =>
        match items with
        | [] => none
        | item :: _ => item.pm25_one_hourly.lookup pm25_region
  let errors3 : List String :=
    match pm25Fetch with
    | .fail => ["PM2.5"]
    | .ok _ => []
  let errors : List String := errors1 ++ errors2 ++ errors3
  let error : Option String :=
    if errors.isEmpty then none
    else some ("Failed to fetch: " ++ String.intercalate ", " errors)
  { forecast := if forecast.isEmpty then "N/A" else forecast
    temp_low := ranges.1
    temp_high := ranges.2.1
    humidity_low := ranges.2.2.1
    humidity_high := ranges.2.2.2
    pm25 := pm25_value
    pm25_level := match pm25_value with
      | some v => _pm25_level v
      | none => "N/A"
    pm25_css_class := match pm25_value with
      | some v => _pm25_css_class v
      | none => ""
    error := error }

/-! Helper lemmas shared by several claim theorems. -/

/-- Floor division by 60 agrees with the mathematical floor of the rational
quotient, which is how the spec phrases the minutes computation. -/
theorem fdiv_sixty_eq_floor (n : Int) : Int.fdiv n 60 = ⌊((n : ℚ)) / 60⌋ := by
  rw [show ((60 : ℚ)) = ((60 : ℕ) : ℚ) by norm_num, Rat.floor_intCast_div_natCast]
  rw [Int.fdiv_eq_ediv n (by norm_num)]
  norm_num

/-- The boolean failure classification the transit fetch reports through its
`error` field: every request-phase failure, plus a well-formed response with
an empty `Services` list. -/
def fetchFailed (outcome : HttpOutcome) : Bool :=
  match outcome with
  | .success body => body.services.isEmpty
  | _ => true

/-- The component names the environment fetch accumulates in its `errors`
list, in the fixed attempt order. -/
def failedNames {α β γ : Type} (forecast2h : SubFetch α)
    (forecast24h : SubFetch β) (pm25Fetch : SubFetch γ) : List String :=
  (if forecast2h.failed then ["weather forecast"] else []) ++
  (if forecast24h.failed then ["temperature"] else []) ++
  (if pm25Fetch.failed then ["PM2.5"] else [])

/-! Claim theorems. -/

/-- C5: the transit fetch classifies a timeout as "API request timed out", an
HTTP status error as "API returned HTTP {status}" with the actual code, a
network-level failure as "Network error", and a well-formed response with no
service entries as "No service data. Bus may not be operating.", each with
empty arrivals. -/
theorem C5_transit_error_classification (stop route : String) (now : Int)
    (code : Nat) :
    fetch_bus_arrivals stop route now .timeout =
      .ok ⟨stop, route, [], now, some "API request timed out"⟩ ∧
    fetch_bus_arrivals stop route now (.statusError code) =
      .ok ⟨stop, route, [], now, some ("API returned HTTP " ++ toString code)⟩ ∧
    fetch_bus_arrivals stop route now .networkError =
      .ok ⟨stop, route, [], now, some "Network error"⟩ ∧
    fetch_bus_arrivals stop route now (.success ⟨[]⟩) =
      .ok ⟨stop, route, [], now, some "No service data. Bus may not be operating."⟩ :=
  ⟨rfl, rfl, rfl, rfl⟩

/-- C4: for every present pm25 value `v` the level label follows the fixed
inclusive thresholds (55 / 150 / 250 / 350) and the style hint is `aqi-good`
up to 55, `aqi-moderate` up to 150, and `aqi-unhealthy` otherwise; when pm25
is unset the level is "N/A" and the style hint is empty. -/
theorem C4_pm25_level_thresholds (area region : String)
    (forecast2h : SubFetch TwoHourItem) (forecast24h : SubFetch TwentyFourHourItem)
    (pm25Fetch : SubFetch Pm25Item) :
    (∀ v : Int,
      (fetch_weather area region forecast2h forecast24h pm25Fetch).pm25 = some v →
      (fetch_weather area region forecast2h forecast24h pm25Fetch).pm25_level =
        (if v ≤ 55 then "Good" else if v ≤ 150 then "Moderate"
         else if v ≤ 250 then "Unhealthy" else if v ≤ 350 then "Very Unhealthy"
         else "Hazardous") ∧
      (fetch_weather area region forecast2h forecast24h pm25Fetch).pm25_css_class =
        (if v ≤ 55 then "aqi-good" else if v ≤ 150 then "aqi-moderate"
         else "aqi-unhealthy")) ∧
    ((fetch_weather area region forecast2h forecast24h pm25Fetch).pm25 = none →
      (fetch_weather area region forecast2h forecast24h pm25Fetch).pm25_level = "N/A" ∧
      (fetch_weather area region forecast2h forecast24h pm25Fetch).pm25_css_class = "") := by
  have hlevel : (fetch_weather area region forecast2h forecast24h pm25Fetch).pm25_level =
      match (fetch_weather area region forecast2h forecast24h pm25Fetch).pm25 with
      | some v => _pm25_level v
      | none => "N/A" := rfl
  have hcss : (fetch_weather area region forecast2h forecast24h pm25Fetch).pm25_css_class =
      match (fetch_weather area region forecast2h forecast24h pm25Fetch).pm25 with
      | some v => _pm25_css_class v
      | none => "" := rfl
  constructor
  · intro v hv
    rw [hlevel, hcss, hv]
    exact ⟨rfl, rfl⟩
  · intro hv
    rw [hlevel, hcss, hv]
    exact ⟨rfl, rfl⟩

/-- Witness for C4 at a concrete input: a reading of 56 in the fetched region
yields the "Moderate" label and the `aqi-moderate` style hint. -/
theorem C4_pm25_level_thresholds_witness :
    (fetch_weather "Bedok" "east" (.ok []) (.ok [])
        (.ok [⟨[("east", 56)]⟩])).pm25_level = "Moderate" ∧
    (fetch_weather "Bedok" "east" (.ok []) (.ok [])
        (.ok [⟨[("east", 56)]⟩])).pm25_css_class = "aqi-moderate" := by
  have h := (C4_pm25_level_thresholds "Bedok" "east" (.ok []) (.ok [])
      (.ok [⟨[("east", 56)]⟩])).1 56 (by decide)
  rw [h.1, h.2]
  exact ⟨by decide, by decide⟩

/-- C1: for every slot whose arrival-time string is present and parseable,
the parsed record has `minutes_away = max(0, floor((estimated_arrival - now)
in seconds / 60))`, where a timestamp lacking a timezone is interpreted as
UTC (its instant is the wall-clock reading itself), and `is_arriving` holds
iff `minutes_away ≤ 1`. -/
theorem C1_minutes_away_and_is_arriving (slot : SlotData) (t : PyDatetime)
    (now : Int) (h : slot.estimatedArrival = .valid t) :
    ∃ rec m, _parse_arrival slot now = .ok rec ∧
      rec.minutes_away = some m ∧
      m = max 0 ⌊((t.wall_seconds - t.utc_offset.getD 0 - now : Int) : ℚ) / 60⌋ ∧
      (rec.is_arriving = true ↔ m ≤ 1) := by
  obtain ⟨ea, lc, tc, ft⟩ := slot
  simp only at h
  subst h
  refine ⟨_, _, rfl, rfl, ?_, ?_⟩
  · rw [← fdiv_sixty_eq_floor]
    rfl
  · exact decide_eq_true_iff

/-- Witness for C1: a naive timestamp 190 seconds after `now = 0` parses to
3 minutes away and is not arriving. -/
theorem C1_minutes_away_and_is_arriving_witness :
    (SlotData.mk (.valid ⟨190, none⟩) "SEA" "SD" "WAB").estimatedArrival =
        .valid ⟨190, none⟩ ∧
    ∃ rec m, _parse_arrival ⟨.valid ⟨190, none⟩, "SEA", "SD", "WAB"⟩ 0 = .ok rec ∧
      rec.minutes_away = some m ∧
      m = max 0 ⌊(((190 : Int) - (Option.none).getD 0 - 0 : Int) : ℚ) / 60⌋ ∧
      (rec.is_arriving = true ↔ m ≤ 1) :=
  ⟨rfl, C1_minutes_away_and_is_arriving ⟨.valid ⟨190, none⟩, "SEA", "SD", "WAB"⟩
    ⟨190, none⟩ 0 rfl⟩

/-- C9: any load code outside {SEA, SDA, LSD} and any vehicle-type code
outside {SD, DD, BD} (including the empty string for an absent field) map to
the Unknown variants without an error, and wheelchair accessibility holds iff
the feature code equals the sentinel "WAB". -/
theorem C9_unknown_codes_and_wheelchair (slot : SlotData) (t : PyDatetime)
    (now : Int) (h : slot.estimatedArrival = .valid t)
    (hl : slot.loadCode ∉ (["SEA", "SDA", "LSD"] : List String))
    (ht : slot.typeCode ∉ (["SD", "DD", "BD"] : List String)) :
    ∃ rec, _parse_arrival slot now = .ok rec ∧
      rec.load = .UNKNOWN ∧ rec.bus_type = .UNKNOWN ∧
      (rec.is_wheelchair_accessible = true ↔ slot.feature = "WAB") := by
  obtain ⟨ea, lc, tc, ft⟩ := slot
  simp only at h
  subst h
  simp only [List.mem_cons, List.not_mem_nil, or_false, not_or] at hl ht
  refine ⟨_, rfl, ?_, ?_, ?_⟩
  · show BusLoad.fromCode lc = .UNKNOWN
    rw [BusLoad.fromCode, if_neg hl.1, if_neg hl.2.1, if_neg hl.2.2]
  · show BusType.fromCode tc = .UNKNOWN
    rw [BusType.fromCode, if_neg ht.1, if_neg ht.2.1, if_neg ht.2.2]
  · exact decide_eq_true_iff

/-- Witness for C9: an unrecognized load code "XYZ", an empty vehicle-type
code and feature "WAB" yield Unknown/Unknown with wheelchair access. -/
theorem C9_unknown_codes_and_wheelchair_witness :
    (SlotData.mk (.valid ⟨190, none⟩) "XYZ" "" "WAB").loadCode ∉
        (["SEA", "SDA", "LSD"] : List String) ∧
    ∃ rec, _parse_arrival ⟨.valid ⟨190, none⟩, "XYZ", "", "WAB"⟩ 0 = .ok rec ∧
      rec.load = .UNKNOWN ∧ rec.bus_type = .UNKNOWN ∧
      (rec.is_wheelchair_accessible = true ↔
        (SlotData.mk (.valid ⟨190, none⟩) "XYZ" "" "WAB").feature = "WAB") :=
  ⟨by decide, C9_unknown_codes_and_wheelchair ⟨.valid ⟨190, none⟩, "XYZ", "", "WAB"⟩
    ⟨190, none⟩ 0 rfl (by decide) (by decide)⟩

/-- Every arrival list produced by the slot loop contains only records with
`has_data = true`, because the loop appends a parsed record only after
checking that flag. -/
theorem collectArrivals_mem_has_data (slots : List (Option SlotData)) (now : Int)
    (l : List BusArrival) (h : collectArrivals slots now = .ok l) :
    ∀ a ∈ l, a.has_data = true := by
  induction slots generalizing l with
  | nil =>
      simp only [collectArrivals, Except.ok.injEq] at h
      subst h
      intro a ha
      exact absurd ha (List.not_mem_nil a)
  | cons slot rest ih =>
      match slot with
      | none => exact ih l h
      | some d =>
          rw [collectArrivals] at h
          cases hp : _parse_arrival d now with
          | error e => simp only [hp] at h; exact Except.noConfusion h
          | ok arrival =>
              rw [hp] at h
              cases hc : collectArrivals rest now with
              | error e => simp only [hc] at h; exact Except.noConfusion h
              | ok tail =>
                  rw [hc] at h
                  cases ha : arrival.has_data with
                  | false =>
                      simp only [ha, Bool.false_eq_true, if_false,
                        Except.ok.injEq] at h
                      subst h
                      exact ih tail hc
                  | true =>
                      simp only [ha, if_true, Except.ok.injEq] at h
                      subst h
                      intro a hmem
                      rcases List.mem_cons.mp hmem with rfl | hmem
                      · exact ha
                      · exact ih tail hc a hmem

/-- C8: a slot with an empty/absent arrival-time string parses to the exact
placeholder record (`has_data = false`, all other fields at their defaults),
and every record in a returned result's arrivals list has `has_data = true`,
so the placeholder is never appended. -/
theorem C8_placeholder_never_appended :
    (∀ slot now, slot.estimatedArrival = .empty →
      _parse_arrival slot now =
        .ok ⟨none, none, .UNKNOWN, .UNKNOWN, false, false, false⟩) ∧
    (∀ stop route now outcome r,
      fetch_bus_arrivals stop route now outcome = .ok r →
      ∀ a ∈ r.arrivals, a.has_data = true) := by
  constructor
  · intro slot now h
    obtain ⟨ea, lc, tc, ft⟩ := slot
    simp only at h
    subst h
    rfl
  · intro stop route now outcome r h a hmem
    match outcome with
    | .timeout | .statusError _ | .networkError | .otherException =>
        simp only [fetch_bus_arrivals, Except.ok.injEq] at h
        subst h
        exact absurd hmem (List.not_mem_nil a)
    | .success body =>
        match hs : body.services with
        | [] =>
            simp only [fetch_bus_arrivals, hs, Except.ok.injEq] at h
            subst h
            exact absurd hmem (List.not_mem_nil a)
        | service :: restServices =>
            simp only [fetch_bus_arrivals, hs] at h
            cases hc : collectArrivals [service.nextBus, service.nextBus2,
                service.nextBus3] now with
            | error e => simp only [hc] at h; exact Except.noConfusion h
            | ok l =>
                rw [hc] at h
                simp only [Except.ok.injEq] at h
                subst h
                exact collectArrivals_mem_has_data _ now l hc a hmem

/-- Witness for C8: the empty slot parses to the placeholder, and the
arrivals of a concrete successful fetch all carry `has_data = true`. -/
theorem C8_placeholder_never_appended_witness :
    _parse_arrival ⟨.empty, "", "", ""⟩ 0 =
      .ok ⟨none, none, .UNKNOWN, .UNKNOWN, false, false, false⟩ ∧
    ∀ a ∈ (⟨"65629", "34", [], 0, some "API request timed out"⟩ :
        BusArrivalResponse).arrivals, a.has_data = true :=
  ⟨C8_placeholder_never_appended.1 ⟨.empty, "", "", ""⟩ 0 rfl,
   C8_placeholder_never_appended.2 "65629" "34" 0 .timeout _ rfl⟩

/-- C7: for every result the transit fetch returns, the error field is
present iff the outcome is a failure (any request-phase failure, or a
well-formed response with no service entries), and whenever the error is
present the arrivals list is empty. -/
theorem C7_error_present_iff_failed (stop route : String) (now : Int)
    (outcome : HttpOutcome) (r : BusArrivalResponse)
    (h : fetch_bus_arrivals stop route now outcome = .ok r) :
    (r.error.isSome = fetchFailed outcome) ∧
    (r.error.isSome = true → r.arrivals = []) := by
  match outcome with
  | .timeout | .statusError _ | .networkError | .otherException =>
      simp only [fetch_bus_arrivals, Except.ok.injEq] at h
      subst h
      exact ⟨rfl, fun _ => rfl⟩
  | .success body =>
      match hs : body.services with
      | [] =>
          simp only [fetch_bus_arrivals, hs, Except.ok.injEq] at h
          subst h
          exact ⟨by simp [fetchFailed, hs], fun _ => rfl⟩
      | service :: restServices =>
          simp only [fetch_bus_arrivals, hs] at h
          cases hc : collectArrivals [service.nextBus, service.nextBus2,
              service.nextBus3] now with
          | error e => simp only [hc] at h; exact Except.noConfusion h
          | ok l =>
              rw [hc] at h
              simp only [Except.ok.injEq] at h
              subst h
              refine ⟨by simp [fetchFailed, hs], ?_⟩
              intro habs
              exact absurd habs (by simp)

/-- Witness for C7 at a concrete input: the timeout result has an error set
and it is classified as failed. -/
theorem C7_error_present_iff_failed_witness :
    ((⟨"65629", "34", [], 0, some "API request timed out"⟩ :
        BusArrivalResponse).error.isSome = fetchFailed .timeout) ∧
    ((⟨"65629", "34", [], 0, some "API request timed out"⟩ :
        BusArrivalResponse).error.isSome = true →
      (⟨"65629", "34", [], 0, some "API request timed out"⟩ :
        BusArrivalResponse).arrivals = []) :=
  C7_error_present_iff_failed "65629" "34" 0 .timeout _ rfl

/-- A slot that carries no usable prediction: absent (or empty dict), or
present with an empty/absent arrival-time string. -/
def noPrediction (slot : Option SlotData) : Prop :=
  slot = none ∨ ∃ d, slot = some d ∧ d.estimatedArrival = .empty

/-- The slot loop yields no arrivals when every slot carries no prediction:
absent slots are skipped and empty-timestamp slots parse to the discarded
placeholder. -/
theorem collectArrivals_all_noPrediction (slots : List (Option SlotData))
    (now : Int) (h : ∀ s ∈ slots, noPrediction s) :
    collectArrivals slots now = .ok [] := by
  induction slots with
  | nil => rfl
  | cons s rest ih =>
      have hrest : collectArrivals rest now = .ok [] :=
        ih (fun x hx => h x (List.mem_cons_of_mem s hx))
      rcases h s (List.mem_cons_self s rest) with rfl | ⟨d, rfl, hd⟩
      · rw [collectArrivals]; exact hrest
      · obtain ⟨ea, lc, tc, ft⟩ := d
        simp only at hd
        subst hd
        rw [collectArrivals, show _parse_arrival ⟨.empty, lc, tc, ft⟩ now =
          .ok ⟨none, none, .UNKNOWN, .UNKNOWN, false, false, false⟩ from rfl, hrest]
        rfl

/-- C10: a successful response with a non-empty service list whose three
slots are all absent or carry empty arrival-time strings yields a result with
empty arrivals and no error — a reachable success outcome distinguishable
from the "No service data" failure only by the absent error. -/
theorem C10_empty_arrivals_success (stop route : String) (now : Int)
    (service : ServiceData) (restServices : List ServiceData)
    (h1 : noPrediction service.nextBus) (h2 : noPrediction service.nextBus2)
    (h3 : noPrediction service.nextBus3) :
    fetch_bus_arrivals stop route now (.success ⟨service :: restServices⟩) =
      .ok ⟨stop, route, [], now, none⟩ := by
  have hc : collectArrivals [service.nextBus, service.nextBus2,
      service.nextBus3] now = .ok [] := by
    refine collectArrivals_all_noPrediction _ now ?_
    intro s hs
    simp only [List.mem_cons, List.not_mem_nil, or_false] at hs
    rcases hs with rfl | rfl | rfl
    · exact h1
    · exact h2
    · exact h3
  simp only [fetch_bus_arrivals, hc]

/-- Witness for C10: a service whose first slot has an empty arrival string
and whose other slots are absent produces the empty-arrivals success. -/
theorem C10_empty_arrivals_success_witness :
    noPrediction (ServiceData.mk (some ⟨.empty, "SEA", "SD", "WAB"⟩) none none).nextBus ∧
    fetch_bus_arrivals "65629" "34" 0
      (.success ⟨[⟨some ⟨.empty, "SEA", "SD", "WAB"⟩, none, none⟩]⟩) =
      .ok ⟨"65629", "34", [], 0, none⟩ :=
  ⟨Or.inr ⟨⟨.empty, "SEA", "SD", "WAB"⟩, rfl, rfl⟩,
   C10_empty_arrivals_success "65629" "34" 0 ⟨some ⟨.empty, "SEA", "SD", "WAB"⟩, none, none⟩ []
     (Or.inr ⟨⟨.empty, "SEA", "SD", "WAB"⟩, rfl, rfl⟩) (Or.inl rfl) (Or.inl rfl)⟩

/-- Whether a slot field would make `datetime.fromisoformat` raise: a
non-empty arrival string the parser rejects. -/
def EAField.isMalformed : EAField → Bool
  | .malformed => true
  | _ => false

/-- Whether a considered slot triggers the uncaught `ValueError`. -/
def slotMalformed : Option SlotData → Bool
  | none => false
  | some d => d.estimatedArrival.isMalformed

/-- `_parse_arrival` returns a record (never raises) whenever the arrival
string is not a malformed non-empty string. -/
theorem _parse_arrival_ok_of_not_malformed (d : SlotData) (now : Int)
    (h : d.estimatedArrival.isMalformed = false) :
    ∃ rec, _parse_arrival d now = .ok rec := by
  obtain ⟨ea, lc, tc, ft⟩ := d
  cases ea with
  | empty => exact ⟨_, rfl⟩
  | valid t => exact ⟨_, rfl⟩
  | malformed => exact absurd h (by simp [EAField.isMalformed])

/-- The slot loop returns a list (never raises) when no considered slot is
malformed. -/
theorem collectArrivals_ok_of_not_malformed (slots : List (Option SlotData))
    (now : Int) (h : ∀ s ∈ slots, slotMalformed s = false) :
    ∃ l, collectArrivals slots now = .ok l := by
  induction slots with
  | nil => exact ⟨[], rfl⟩
  | cons s rest ih =>
      obtain ⟨tail, htail⟩ := ih (fun x hx => h x (List.mem_cons_of_mem s hx))
      match s with
      | none => exact ⟨tail, by rw [collectArrivals]; exact htail⟩
      | some d =>
          obtain ⟨rec, hrec⟩ := _parse_arrival_ok_of_not_malformed d now
            (h (some d) (List.mem_cons_self _ _))
          rw [collectArrivals, hrec, htail]
          cases hd : rec.has_data with
          | false => exact ⟨tail, by simp [hd]⟩
          | true => exact ⟨rec :: tail, by simp [hd]⟩

/-- C2 counterexample: a successful upstream response whose first slot
carries a non-empty arrival string that the timestamp parser rejects makes
the fetch raise to its caller instead of returning an error result — the
slot-parsing phase sits outside the `try` block. -/
theorem C2_never_throws_counterexample :
    fetch_bus_arrivals "65629" "34" 0
      (.success ⟨[⟨some ⟨.malformed, "", "", ""⟩, none, none⟩]⟩) =
      .error () := rfl

/-- C2 amended: every failure during the guarded request phase (timeout,
HTTP status, network, or any other exception while requesting or decoding
the body — the catch-all yielding "Unexpected error") is converted into a
result with the error field set and empty arrivals, and on a successful
response the fetch returns a result provided no considered slot of the first
service has a malformed arrival-time string; only such a malformed slot can
make it raise. -/
theorem C2_request_phase_never_throws (stop route : String) (now : Int)
    (outcome : HttpOutcome)
    (h : ∀ body service restServices, outcome = .success body →
      body.services = service :: restServices →
      slotMalformed service.nextBus = false ∧
      slotMalformed service.nextBus2 = false ∧
      slotMalformed service.nextBus3 = false) :
    (∃ r, fetch_bus_arrivals stop route now outcome = .ok r) ∧
    fetch_bus_arrivals stop route now .otherException =
      .ok ⟨stop, route, [], now, some "Unexpected error"⟩ := by
  refine ⟨?_, rfl⟩
  match outcome with
  | .timeout => exact ⟨_, rfl⟩
  | .statusError code => exact ⟨_, rfl⟩
  | .networkError => exact ⟨_, rfl⟩
  | .otherException => exact ⟨_, rfl⟩
  | .success body =>
      match hs : body.services with
      | [] =>
          exact ⟨⟨stop, route, [], now,
            some "No service data. Bus may not be operating."⟩,
            by simp only [fetch_bus_arrivals, hs]⟩
      | service :: restServices =>
          obtain ⟨m1, m2, m3⟩ := h body service restServices rfl hs
          have hmem : ∀ s ∈ [service.nextBus, service.nextBus2,
              service.nextBus3], slotMalformed s = false := by
            intro s hsm
            simp only [List.mem_cons, List.not_mem_nil, or_false] at hsm
            rcases hsm with rfl | rfl | rfl
            · exact m1
            · exact m2
            · exact m3
          obtain ⟨l, hl⟩ := collectArrivals_ok_of_not_malformed
            [service.nextBus, service.nextBus2, service.nextBus3] now hmem
          exact ⟨⟨stop, route, l, now, none⟩,
            by simp only [fetch_bus_arrivals, hs, hl]⟩

/-- Witness for the amended C2: a concrete well-formed response (one service,
one valid slot) yields a result, and the catch-all branch yields the
"Unexpected error" result. -/
theorem C2_request_phase_never_throws_witness :
    (∃ r, fetch_bus_arrivals "65629" "34" 0
      (.success ⟨[⟨some ⟨.valid ⟨190, none⟩, "SEA", "SD", "WAB"⟩, none, none⟩]⟩) =
      .ok r) ∧
    fetch_bus_arrivals "65629" "34" 0 .otherException =
      .ok ⟨"65629", "34", [], 0, some "Unexpected error"⟩ :=
  C2_request_phase_never_throws "65629" "34" 0
    (.success ⟨[⟨some ⟨.valid ⟨190, none⟩, "SEA", "SD", "WAB"⟩, none, none⟩]⟩)
    (by intro body service restServices hb hsvc
        cases hb
        simp only [BusApiBody.mk.injEq] at hsvc
        rcases List.cons.injEq .. ▸ hsvc with ⟨rfl, rfl⟩
        exact ⟨rfl, rfl, rfl⟩)

/-- C3: for every combination of sub-fetch outcomes, the snapshot's error
equals "Failed to fetch: " followed by the comma-joined names of exactly the
failed components, in the fixed order weather forecast, temperature, PM2.5,
and is unset when all three succeed; in particular, when only the PM2.5
sub-fetch fails, the error is "Failed to fetch: PM2.5", the temperature and
humidity fields carry the fetched values, pm25 is unset and its level is
"N/A". -/
theorem C3_weather_error_aggregation (area region : String)
    (forecast2h : SubFetch TwoHourItem)
    (forecast24h : SubFetch TwentyFourHourItem) (pm25Fetch : SubFetch Pm25Item) :
    ((fetch_weather area region forecast2h forecast24h pm25Fetch).error =
      if (failedNames forecast2h forecast24h pm25Fetch).isEmpty then none
      else some ("Failed to fetch: " ++
        String.intercalate ", " (failedNames forecast2h forecast24h pm25Fetch))) ∧
    (∀ items2 item restItems,
      forecast2h = .ok items2 → forecast24h = .ok (item :: restItems) →
      pm25Fetch = .fail →
      (fetch_weather area region forecast2h forecast24h pm25Fetch).error =
        some "Failed to fetch: PM2.5" ∧
      (fetch_weather area region forecast2h forecast24h pm25Fetch).temp_low =
        item.temperature.low.getD 0 ∧
      (fetch_weather area region forecast2h forecast24h pm25Fetch).temp_high =
        item.temperature.high.getD 0 ∧
      (fetch_weather area region forecast2h forecast24h pm25Fetch).humidity_low =
        item.relative_humidity.low.getD 0 ∧
      (fetch_weather area region forecast2h forecast24h pm25Fetch).humidity_high =
        item.relative_humidity.high.getD 0 ∧
      (fetch_weather area region forecast2h forecast24h pm25Fetch).pm25 = none ∧
      (fetch_weather area region forecast2h forecast24h pm25Fetch).pm25_level =
        "N/A") := by
  constructor
  · cases forecast2h <;> cases forecast24h <;> cases pm25Fetch <;> rfl
  · intro items2 item restItems h2 h24 hpm
    subst h2
    subst h24
    subst hpm
    exact ⟨rfl, rfl, rfl, rfl, rfl, rfl, rfl⟩

/-- Witness for C3 at a concrete input: forecast and temperature succeed,
PM2.5 raises; the snapshot keeps the fetched ranges and reports only the
PM2.5 failure. -/
theorem C3_weather_error_aggregation_witness :
    (fetch_weather "Bedok" "east" (.ok [])
        (.ok [⟨⟨some 24, some 31⟩, ⟨some 60, some 95⟩⟩]) .fail).error =
      some "Failed to fetch: PM2.5" ∧
    (fetch_weather "Bedok" "east" (.ok [])
        (.ok [⟨⟨some 24, some 31⟩, ⟨some 60, some 95⟩⟩]) .fail).temp_low =
      (some (24 : Int)).getD 0 ∧
    (fetch_weather "Bedok" "east" (.ok [])
        (.ok [⟨⟨some 24, some 31⟩, ⟨some 60, some 95⟩⟩]) .fail).temp_high =
      (some (31 : Int)).getD 0 ∧
    (fetch_weather "Bedok" "east" (.ok [])
        (.ok [⟨⟨some 24, some 31⟩, ⟨some 60, some 95⟩⟩]) .fail).humidity_low =
      (some (60 : Int)).getD 0 ∧
    (fetch_weather "Bedok" "east" (.ok [])
        (.ok [⟨⟨some 24, some 31⟩, ⟨some 60, some 95⟩⟩]) .fail).humidity_high =
      (some (95 : Int)).getD 0 ∧
    (fetch_weather "Bedok" "east" (.ok [])
        (.ok [⟨⟨some 24, some 31⟩, ⟨some 60, some 95⟩⟩]) .fail).pm25 = none ∧
    (fetch_weather "Bedok" "east" (.ok [])
        (.ok [⟨⟨some 24, some 31⟩, ⟨some 60, some 95⟩⟩]) .fail).pm25_level =
      "N/A" :=
  (C3_weather_error_aggregation "Bedok" "east" (.ok [])
      (.ok [⟨⟨some 24, some 31⟩, ⟨some 60, some 95⟩⟩]) .fail).2
    [] ⟨⟨some 24, some 31⟩, ⟨some 60, some 95⟩⟩ [] rfl rfl rfl

/-- C6 counterexample: with a successful 2-hour sub-fetch whose first batch
has no entry matching the configured area, the forecast renders as "N/A" but
no "weather forecast" failure is recorded — the error is unset, contradicting
the claim that a no-match records a failed component. -/
theorem C6_no_match_counterexample :
    (fetch_weather "Bedok" "east" (.ok [⟨[⟨"Tampines", "Cloudy"⟩]⟩]) (.ok [])
        (.ok [])).forecast = "N/A" ∧
    (fetch_weather "Bedok" "east" (.ok [⟨[⟨"Tampines", "Cloudy"⟩]⟩]) (.ok [])
        (.ok [])).error = none := by
  constructor <;> decide

/-- C6 amended: when the 2-hour sub-fetch succeeds but the per-area scan
finds no case-insensitive match (including an empty batch), the forecast text
is left empty and rendered "N/A", yet "weather forecast" is not recorded as a
failed component — it is recorded only when the sub-fetch raises — so the
error reflects only the other two components. -/
theorem C6_no_match_keeps_error_unset (area region : String)
    (items : List TwoHourItem) (forecast24h : SubFetch TwentyFourHourItem)
    (pm25Fetch : SubFetch Pm25Item)
    (h : ∀ item restItems, items = item :: restItems →
      findAreaForecast area item.forecasts = none) :
    (fetch_weather area region (.ok items) forecast24h pm25Fetch).forecast =
      "N/A" ∧
    (fetch_weather area region (.ok items) forecast24h pm25Fetch).error =
      if (failedNames (SubFetch.ok items) forecast24h pm25Fetch).isEmpty then none
      else some ("Failed to fetch: " ++ String.intercalate ", "
        (failedNames (SubFetch.ok items) forecast24h pm25Fetch)) := by
  have herr : (fetch_weather area region (.ok items) forecast24h pm25Fetch).error =
      if (failedNames (SubFetch.ok items) forecast24h pm25Fetch).isEmpty then none
      else some ("Failed to fetch: " ++ String.intercalate ", "
        (failedNames (SubFetch.ok items) forecast24h pm25Fetch)) := by
    cases forecast24h <;> cases pm25Fetch <;> rfl
  refine ⟨?_, herr⟩
  match items with
  | [] => rfl
  | item :: restItems =>
      have hf := h item restItems rfl
      show (let fc := match findAreaForecast area item.forecasts with
              | some f => f.forecast
              | none => ""
            if fc.isEmpty then "N/A" else fc) = "N/A"
      rw [hf]
      rfl

/-- Witness for the amended C6: a concrete batch whose only area differs from
the configured one yields forecast "N/A" with the error unset. -/
theorem C6_no_match_keeps_error_unset_witness :
    (fetch_weather "Bedok" "east" (.ok [⟨[⟨"Jurong", "Rain"⟩]⟩]) (.ok [])
        (.ok [])).forecast = "N/A" ∧
    (fetch_weather "Bedok" "east" (.ok [⟨[⟨"Jurong", "Rain"⟩]⟩]) (.ok [])
        (.ok [])).error =
      if (failedNames (SubFetch.ok [(⟨[⟨"Jurong", "Rain"⟩]⟩ : TwoHourItem)])
          (SubFetch.ok ([] : List TwentyFourHourItem))
          (SubFetch.ok ([] : List Pm25Item))).isEmpty then none
      else some ("Failed to fetch: " ++ String.intercalate ", "
        (failedNames (SubFetch.ok [(⟨[⟨"Jurong", "Rain"⟩]⟩ : TwoHourItem)])
          (SubFetch.ok ([] : List TwentyFourHourItem))
          (SubFetch.ok ([] : List Pm25Item)))) :=
  C6_no_match_keeps_error_unset "Bedok" "east" [⟨[⟨"Jurong", "Rain"⟩]⟩]
    (.ok []) (.ok [])
    (by intro item restItems hi
        simp only [List.cons.injEq] at hi
        rcases hi with ⟨rfl, rfl⟩
        decide)

end HomeDashboard
